import Mathlib

/-!
Verification of the `DrissionPageBase` browser-automation wrapper
(`src/crawl/drission_page_base.py`).

The wrapper is pure glue over an external browser driver, so each method is
embedded as a pure function that returns the trace of driver calls it issues
(together with the updated pseudo-random state where the method draws random
values).  The external driver itself is out of scope; the traces record
exactly the calls the wrapper makes and the parameters it passes.
-/

namespace DrissionPageBase

/-- A bounding rectangle as returned by `getBoundingClientRect()`:
fields `x`, `y`, `width`, `height` in viewport coordinates. -/
structure BoundingRect where
  x : ℚ
  y : ℚ
  width : ℚ
  height : ℚ
  deriving DecidableEq, Repr

/-- A touch point as built in `touch_tap` (source lines 134-141):
`{x, y, id, radiusX, radiusY, force}`. -/
structure TouchPoint where
  x : ℚ
  y : ℚ
  id : Int
  radiusX : Int
  radiusY : Int
  force : Int
  deriving DecidableEq, Repr

/-- The driver calls `touch_tap` can issue, in order of appearance in the
source: scroll the element into view, query its bounding rectangle,
dispatch a touch event over CDP, or sleep. -/
inductive TapAction where
  | scrollToSee : TapAction
  | getBoundingRect : TapAction
  | dispatchTouchEvent (type : String) (touchPoints : List TouchPoint) : TapAction
  | sleepSeconds (seconds : ℚ) : TapAction
  deriving DecidableEq, Repr

/-- Center coordinates computed by `touch_tap` (source lines 130-131):
`center_x = x + width / 2`, `center_y = y + height / 2`. -/
def touch_tap_center (bounding_rect : BoundingRect) : ℚ × ℚ :=
  (bounding_rect.x + bounding_rect.width / 2,
   bounding_rect.y + bounding_rect.height / 2)

/-- Trace of `touch_tap` (source lines 122-149): the driver calls it
makes, given the bounding rectangle the driver reports for the element. -/
def touch_tap (bounding_rect : BoundingRect) : List TapAction :=
  let center := touch_tap_center bounding_rect
  let touch_point : TouchPoint :=
    { x := center.1, y := center.2, id := 0, radiusX := 1, radiusY := 1, force := 1 }
  [TapAction.scrollToSee,
   TapAction.getBoundingRect,
   TapAction.dispatchTouchEvent "touchStart" [touch_point],
   TapAction.sleepSeconds (1/10),
   TapAction.dispatchTouchEvent "touchEnd" [touch_point]]

/-- The touch points of the `touchStart` dispatches in a trace. -/
def touchStartPoints (trace : List TapAction) : List (List TouchPoint) :=
  trace.filterMap fun a =>
    match a with
    | TapAction.dispatchTouchEvent "touchStart" pts => some pts
    | _ => none

/-- The touch points of the `touchEnd` dispatches in a trace. -/
def touchEndPoints (trace : List TapAction) : List (List TouchPoint) :=
  trace.filterMap fun a =>
    match a with
    | TapAction.dispatchTouchEvent "touchEnd" pts => some pts
    | _ => none

/-- Device-metrics override parameters of
`Emulation.setDeviceMetricsOverride` (source lines 106-112). -/
structure DeviceMetrics where
  width : Int
  height : Int
  deviceScaleFactor : ℚ
  mobile : Bool
  screenOrientationAngle : Int
  screenOrientationType : String
  deriving DecidableEq, Repr

/-- User-agent override parameters of
`Emulation.setUserAgentOverride` (source lines 116-119). -/
structure UserAgentOverride where
  userAgent : String
  platform : String
  deriving DecidableEq, Repr

/-- A CDP command issued by `enable_mobile_mode`. -/
inductive CdpCommand where
  | setDeviceMetricsOverride (metrics : DeviceMetrics) : CdpCommand
  | setUserAgentOverride (ua : UserAgentOverride) : CdpCommand
  deriving DecidableEq, Repr

/-- Emulation state of the page before the call: which overrides, if any,
are currently active.  `enable_mobile_mode` never reads it. -/
structure EmulationState where
  deviceMetrics : Option DeviceMetrics
  userAgent : Option UserAgentOverride
  deriving DecidableEq, Repr

/-- Trace of `enable_mobile_mode` (source lines 105-120): the CDP
commands it issues.  The prior emulation state of the page is passed in
(it is reachable through `self.page`) but the source never consults it. -/
def enable_mobile_mode (_prior : EmulationState) : List CdpCommand :=
  [CdpCommand.setDeviceMetricsOverride
     { width := 411
       height := 731
       deviceScaleFactor := 2.625
       mobile := true
       screenOrientationAngle := 0
       screenOrientationType := "portraitPrimary" },
   CdpCommand.setUserAgentOverride
     { userAgent := "Mozilla/5.0 (Linux; Android 8.0.0; Pixel Build/OPR3.170623.007) AppleWebKit/537.36 (KHTML, like Gecko) Chrome/67.0.3396.68 Mobile Safari/537.36"
       platform := "Android" }]

/-- State of the global pseudo-random source (`random`): two streams of raw
draws with cursors.  `ints` feeds `random.randint`, `fracs` feeds
`random.uniform`.  Raw fractional draws are arbitrary rationals and are
mapped into `[0, 1)` by taking the fractional part, modelling the library
guarantee that `random.random()` lies in `[0, 1)`. -/
structure RandState where
  ints : Nat → Int
  fracs : Nat → ℚ
  intIdx : Nat
  fracIdx : Nat

/-- Model of `random.randint lo hi`: returns a value in `[lo, hi]`
(the library contract, realised here as `lo + raw mod (hi - lo + 1)`),
consuming one raw integer draw. -/
def randint (lo hi : Int) (s : RandState) : Int × RandState :=
  (lo + (s.ints s.intIdx).emod (hi - lo + 1), { s with intIdx := s.intIdx + 1 })

/-- Model of `random.uniform lo hi`: returns `lo + (hi - lo) * r` with
`r ∈ [0, 1)` (the library contract), consuming one raw fractional draw. -/
def uniform (lo hi : ℚ) (s : RandState) : ℚ × RandState :=
  (lo + (hi - lo) * Int.fract (s.fracs s.fracIdx), { s with fracIdx := s.fracIdx + 1 })

/-- The driver calls `slow_scroll` can issue. -/
inductive ScrollAction where
  | setSmooth (enabled : Bool) : ScrollAction
  | setWaitComplete (enabled : Bool) : ScrollAction
  | scrollDown (amount : Int) : ScrollAction
  | waitSeconds (seconds : ℚ) : ScrollAction
  deriving DecidableEq, Repr

/-- The loop body of `slow_scroll` (source lines 92-94): `n` iterations of
scroll-down by `scroll_amount` followed by a wait of `delay_amount`. -/
def scroll_loop (n : Nat) (scroll_amount : Int) (delay_amount : ℚ) : List ScrollAction :=
  match n with
  | 0 => []
  | m + 1 =>
    ScrollAction.scrollDown scroll_amount :: ScrollAction.waitSeconds delay_amount ::
      scroll_loop m scroll_amount delay_amount

/-- Trace of `slow_scroll` (source lines 87-94): the driver calls it
makes and the updated random state.  The delay is drawn once with
`random.uniform(0.5, 2)`, the magnitude once with
`random.randint(500, 1000)`, both before the 5-iteration loop. -/
def slow_scroll (s : RandState) : List ScrollAction × RandState :=
  let d := uniform (1/2) 2 s
  let a := randint 500 1000 d.2
  (ScrollAction.setSmooth true :: ScrollAction.setWaitComplete true ::
     scroll_loop 5 a.1 d.1, a.2)

/-- The scroll magnitudes of the `scrollDown` steps in a trace. -/
def scrollAmounts (trace : List ScrollAction) : List Int :=
  trace.filterMap fun a =>
    match a with
    | ScrollAction.scrollDown amount => some amount
    | _ => none

/-- The delays of the `waitSeconds` steps in a trace. -/
def waitDelays (trace : List ScrollAction) : List ℚ :=
  trace.filterMap fun a =>
    match a with
    | ScrollAction.waitSeconds seconds => some seconds
    | _ => none

/-- Model of the DrissionPage `ChromiumOptions` builder: the launch
arguments accumulated by `set_argument` (name with optional value), and the
user agent, remote-debug address and browser path when set. -/
structure ChromiumOptions where
  arguments : List (String × Option String)
  userAgent : Option String
  address : Option String
  browserPath : Option String
  deriving DecidableEq, Repr

/-- Model of `ChromiumOptions()`: empty argument list, nothing set. -/
def ChromiumOptions.empty : ChromiumOptions :=
  { arguments := [], userAgent := none, address := none, browserPath := none }

/-- Model of `co.set_argument(arg, value)`: append a launch argument. -/
def ChromiumOptions.set_argument (co : ChromiumOptions) (arg : String)
    (value : Option String) : ChromiumOptions :=
  { co with arguments := co.arguments ++ [(arg, value)] }

/-- Model of `co.set_user_agent(ua)`. -/
def ChromiumOptions.set_user_agent (co : ChromiumOptions) (ua : String) : ChromiumOptions :=
  { co with userAgent := some ua }

/-- Model of `co.set_address(addr)`. -/
def ChromiumOptions.set_address (co : ChromiumOptions) (addr : String) : ChromiumOptions :=
  { co with address := some addr }

/-- Model of `co.set_browser_path(path)`. -/
def ChromiumOptions.set_browser_path (co : ChromiumOptions) (path : String) : ChromiumOptions :=
  { co with browserPath := some path }

/-- The option-building part of `__init__` (source lines 21-43): headless,
incognito and user-agent flags, the always-added arguments, the window-size
choice and the debug address.  `configured_user_agent` stands for the value
returned by `_config_user_agent()` (external user-agent rotation). -/
def build_options (window_size : String) (is_headless is_incognito is_user_agent : Bool)
    (configured_user_agent : String) (debug_port : Int) : ChromiumOptions :=
  let co0 := ChromiumOptions.empty
  let co1 := if is_headless then
      (co0.set_argument "--headless" none).set_argument "--no-sandbox" none
    else co0
  let co2 := if is_incognito then co1.set_argument "--incognito" none else co1
  let co3 := if is_user_agent then co2.set_user_agent configured_user_agent else co2
  let co4 := (co3.set_argument "--disable-dev-shm-usage" none).set_argument "--disable-gpu" none
  let co5 := if window_size = "full" then co4.set_argument "--start-maximized" none
    else co4.set_argument "--window-size" (some window_size)
  if debug_port ≠ -1 then co5.set_address ("127.0.0.1:" ++ toString debug_port) else co5

/-- A constructed session: the options handed to `WebPage` together with
the implicit-wait timeout (source line 56).  A `Session` value exists
exactly when the browser process is launched. -/
structure Session where
  co : ChromiumOptions
  timeout : Int
  deriving DecidableEq, Repr

/-- Model of `__init__` (source lines 11-56): build the options, then dispatch on
the driver name (lines 45-54).  Unsupported driver names raise before the
`WebPage` (here: the `Session`) is ever created. -/
def init (window_size : String) (is_headless is_incognito is_user_agent : Bool)
    (time_implicitly_wait : Int) (driver_name : String) (debug_port : Int)
    (configured_user_agent : String) : Except String Session :=
  let co := build_options window_size is_headless is_incognito is_user_agent
    configured_user_agent debug_port
  if driver_name = "chrome" then
    Except.ok { co := co.set_browser_path "usr/bin/google-chrome", timeout := time_implicitly_wait }
  else if driver_name = "brave" then
    Except.ok { co := co.set_browser_path "usr/bin/brave-browser", timeout := time_implicitly_wait }
  else if driver_name = "opera" then
    Except.ok { co := co.set_browser_path "usr/bin/opera", timeout := time_implicitly_wait }
  else if driver_name = "edge" then
    Except.ok { co := co.set_browser_path "usr/bin/microsoft-edge-dev", timeout := time_implicitly_wait }
  else
    Except.error ("Unsupported driver name: " ++ driver_name)

/-- A call to the underlying driver made by `open_url`. -/
inductive DriverCall where
  | get (url : String) (retry interval timeout : Int) : DriverCall
  deriving DecidableEq, Repr

/-- Trace of `open_url` (source lines 67-68): the driver calls it
makes: a single `page.get` with the given url, retry count, retry interval
and timeout. -/
def open_url (url : String) (retry interval timeout : Int) : List DriverCall :=
  [DriverCall.get url retry interval timeout]

/-!  Helper lemmas about `init` and `build_options`. -/

/-- When `init` succeeds, the session's options are the built options with
only the browser path added: launch arguments and address are those of
`build_options`. -/
lemma init_ok_co {ws : String} {hl ic iu : Bool} {tw : Int} {dn : String} {dp : Int}
    {cua : String} {sess : Session}
    (h : init ws hl ic iu tw dn dp cua = Except.ok sess) :
    sess.co.arguments = (build_options ws hl ic iu cua dp).arguments ∧
    sess.co.address = (build_options ws hl ic iu cua dp).address := by
  unfold init at h
  by_cases h1 : dn = "chrome"
  · rw [if_pos h1] at h
    cases h
    exact ⟨rfl, rfl⟩
  · rw [if_neg h1] at h
    by_cases h2 : dn = "brave"
    · rw [if_pos h2] at h
      cases h
      exact ⟨rfl, rfl⟩
    · rw [if_neg h2] at h
      by_cases h3 : dn = "opera"
      · rw [if_pos h3] at h
        cases h
        exact ⟨rfl, rfl⟩
      · rw [if_neg h3] at h
        by_cases h4 : dn = "edge"
        · rw [if_pos h4] at h
          cases h
          exact ⟨rfl, rfl⟩
        · rw [if_neg h4] at h
          exact absurd h (by simp)

/-- The launch arguments produced by `build_options`, in order. -/
lemma build_options_arguments (ws : String) (hl ic iu : Bool) (cua : String) (dp : Int) :
    (build_options ws hl ic iu cua dp).arguments =
      (if hl then [("--headless", (none : Option String)), ("--no-sandbox", none)] else []) ++
      (if ic then [("--incognito", (none : Option String))] else []) ++
      [("--disable-dev-shm-usage", (none : Option String)), ("--disable-gpu", none)] ++
      (if ws = "full" then [("--start-maximized", (none : Option String))]
        else [("--window-size", some ws)]) := by
  cases hl <;> cases ic <;> cases iu <;> by_cases hws : ws = "full" <;> by_cases hdp : dp = -1 <;>
    simp [build_options, ChromiumOptions.empty, ChromiumOptions.set_argument,
      ChromiumOptions.set_user_agent, ChromiumOptions.set_address, hws, hdp]

/-- The remote-debug address produced by `build_options`. -/
lemma build_options_address (ws : String) (hl ic iu : Bool) (cua : String) (dp : Int) :
    (build_options ws hl ic iu cua dp).address =
      if dp ≠ -1 then some ("127.0.0.1:" ++ toString dp) else none := by
  cases hl <;> cases ic <;> cases iu <;> by_cases hws : ws = "full" <;> by_cases hdp : dp = -1 <;>
    simp [build_options, ChromiumOptions.empty, ChromiumOptions.set_argument,
      ChromiumOptions.set_user_agent, ChromiumOptions.set_address, hws, hdp]

/-!  Claim theorems. -/

/-- Claim C1: for every bounding rectangle with fields x, y, width, height,
`touch_tap` computes the tap center as `(x + width/2, y + height/2)` — every
touch point it dispatches is at that center — and for the rectangle
`{x:10, y:20, width:100, height:50}` the computed tap center is `(60, 45)`. -/
theorem touch_tap_center_correct :
    (∀ (r : BoundingRect) (ty : String) (pts : List TouchPoint) (p : TouchPoint),
        TapAction.dispatchTouchEvent ty pts ∈ touch_tap r → p ∈ pts →
        p.x = r.x + r.width / 2 ∧ p.y = r.y + r.height / 2) ∧
    touch_tap_center ⟨10, 20, 100, 50⟩ = (60, 45) := by
  constructor
  · intro r ty pts p hmem hp
    simp only [touch_tap, touch_tap_center, List.mem_cons, List.not_mem_nil, or_false,
      reduceCtorEq, false_or, TapAction.dispatchTouchEvent.injEq] at hmem
    rcases hmem with ⟨hty, hpts⟩ | ⟨hty, hpts⟩ <;>
      · subst hpts
        simp only [List.mem_singleton] at hp
        subst hp
        exact ⟨rfl, rfl⟩
  · show ((10 : ℚ) + 100 / 2, (20 : ℚ) + 50 / 2) = (60, 45)
    norm_num

/-- Witness for C1: the touch point dispatched for the rectangle
`{x:10, y:20, width:100, height:50}` is at the center `(60, 45)`. -/
theorem touch_tap_center_correct_witness :
    TapAction.dispatchTouchEvent "touchStart" [(⟨60, 45, 0, 1, 1, 1⟩ : TouchPoint)] ∈
        touch_tap ⟨10, 20, 100, 50⟩ ∧
    ((⟨60, 45, 0, 1, 1, 1⟩ : TouchPoint).x = 10 + 100 / 2 ∧
     (⟨60, 45, 0, 1, 1, 1⟩ : TouchPoint).y = 20 + 50 / 2) :=
  have hmem : TapAction.dispatchTouchEvent "touchStart"
      [(⟨60, 45, 0, 1, 1, 1⟩ : TouchPoint)] ∈ touch_tap ⟨10, 20, 100, 50⟩ := by
    norm_num [touch_tap, touch_tap_center]
  ⟨hmem,
   touch_tap_center_correct.1 ⟨10, 20, 100, 50⟩ "touchStart"
     [⟨60, 45, 0, 1, 1, 1⟩] ⟨60, 45, 0, 1, 1, 1⟩ hmem (List.mem_singleton.mpr rfl)⟩

/-- Claim C4: `touch_tap` dispatches exactly one touch-start event carrying a
single touch point at the computed center with radiusX = radiusY = 1 and
force = 1, then waits 0.1 seconds, then dispatches exactly one touch-end
event whose touch point is identical to the touch-start point. -/
theorem touch_tap_events (r : BoundingRect) :
    ∃ p : TouchPoint,
      p.x = (touch_tap_center r).1 ∧ p.y = (touch_tap_center r).2 ∧
      p.radiusX = 1 ∧ p.radiusY = 1 ∧ p.force = 1 ∧
      touch_tap r =
        [TapAction.scrollToSee,
         TapAction.getBoundingRect,
         TapAction.dispatchTouchEvent "touchStart" [p],
         TapAction.sleepSeconds (1/10),
         TapAction.dispatchTouchEvent "touchEnd" [p]] :=
  ⟨_, rfl, rfl, rfl, rfl, rfl, rfl⟩

/-- Claim C5: `enable_mobile_mode` issues exactly two protocol-level override
commands — a device-metrics override with width=411, height=731,
deviceScaleFactor=2.625, mobile=true, screenOrientation={angle:0,
type:"portraitPrimary"}, then a user-agent override with an Android
user-agent string and platform — and the parameters sent are the same for
every prior emulation state. -/
theorem enable_mobile_mode_overrides (prior : EmulationState) :
    enable_mobile_mode prior =
      [CdpCommand.setDeviceMetricsOverride
         { width := 411
           height := 731
           deviceScaleFactor := 2.625
           mobile := true
           screenOrientationAngle := 0
           screenOrientationType := "portraitPrimary" },
       CdpCommand.setUserAgentOverride
         { userAgent := "Mozilla/5.0 (Linux; Android 8.0.0; Pixel Build/OPR3.170623.007) AppleWebKit/537.36 (KHTML, like Gecko) Chrome/67.0.3396.68 Mobile Safari/537.36"
           platform := "Android" }] :=
  rfl

/-- Claim C8: `open_url` forwards the url, retry count, retry interval and
timeout unchanged to the driver's navigation call, and its trace is that
single driver call — no retry, backoff or error-interpretation logic of its
own. -/
theorem open_url_passthrough (url : String) (retry interval timeout : Int) :
    open_url url retry interval timeout = [DriverCall.get url retry interval timeout] ∧
    (open_url url retry interval timeout).length = 1 :=
  ⟨rfl, rfl⟩

/-- Claim C2: for every random state, `slow_scroll` performs exactly 5
downward scroll steps with no early termination, every scroll magnitude lies
in [500, 1000] and every inter-step delay lies in [0.5, 2.0] seconds. -/
theorem slow_scroll_five_steps (s : RandState) :
    (scrollAmounts (slow_scroll s).1).length = 5 ∧
    (∀ a ∈ scrollAmounts (slow_scroll s).1, 500 ≤ a ∧ a ≤ 1000) ∧
    (waitDelays (slow_scroll s).1).length = 5 ∧
    (∀ d ∈ waitDelays (slow_scroll s).1, 1/2 ≤ d ∧ d ≤ 2) := by
  have hA : scrollAmounts (slow_scroll s).1
      = List.replicate 5 (500 + (s.ints s.intIdx).emod 501) := rfl
  have hD : waitDelays (slow_scroll s).1
      = List.replicate 5 (1/2 + (2 - 1/2) * Int.fract (s.fracs s.fracIdx)) := rfl
  refine ⟨by rw [hA]; rfl, ?_, by rw [hD]; rfl, ?_⟩
  · intro a ha
    rw [hA] at ha
    have ha' := List.eq_of_mem_replicate ha
    subst ha'
    have h0 : 0 ≤ (s.ints s.intIdx).emod 501 := Int.emod_nonneg _ (by decide)
    have h1 : (s.ints s.intIdx).emod 501 < 501 := Int.emod_lt_of_pos _ (by decide)
    omega
  · intro d hd
    rw [hD] at hd
    have hd' := List.eq_of_mem_replicate hd
    subst hd'
    have h0 : (0 : ℚ) ≤ Int.fract (s.fracs s.fracIdx) := Int.fract_nonneg _
    have h1 : Int.fract (s.fracs s.fracIdx) < 1 := Int.fract_lt_one _
    constructor <;> nlinarith

/-- Witness for C2: on the all-zero random state the drawn magnitude 500 is
among the scroll steps and satisfies the bounds. -/
theorem slow_scroll_five_steps_witness :
    (500 : Int) ∈ scrollAmounts (slow_scroll ⟨fun _ => 0, fun _ => 0, 0, 0⟩).1 ∧
    ((500 : Int) ≤ 500 ∧ (500 : Int) ≤ 1000) :=
  ⟨by decide,
   (slow_scroll_five_steps ⟨fun _ => 0, fun _ => 0, 0, 0⟩).2.1 500 (by decide)⟩

/-- Claim C9: in every call, `slow_scroll` draws the scroll magnitude and
the inter-step delay from the random source exactly once each, before the
loop: all 5 scroll steps use the same magnitude, all 5 pauses use the same
duration, and exactly one draw is consumed from each stream. -/
theorem slow_scroll_single_draw (s : RandState) :
    (∃ a : Int, scrollAmounts (slow_scroll s).1 = List.replicate 5 a) ∧
    (∃ d : ℚ, waitDelays (slow_scroll s).1 = List.replicate 5 d) ∧
    (slow_scroll s).2.intIdx = s.intIdx + 1 ∧
    (slow_scroll s).2.fracIdx = s.fracIdx + 1 :=
  ⟨⟨_, rfl⟩, ⟨_, rfl⟩, rfl, rfl⟩

/-- Claim C3: for each of the four supported driver-name strings the
constructor sets the corresponding fixed executable path as the browser
path; for every other string, construction fails with the unsupported-driver
error before any session (browser process) is created. -/
theorem init_variant_paths (ws : String) (hl ic iu : Bool) (tw : Int) (dn : String)
    (dp : Int) (cua : String) :
    (dn = "chrome" → ∃ sess, init ws hl ic iu tw dn dp cua = Except.ok sess ∧
        sess.co.browserPath = some "usr/bin/google-chrome") ∧
    (dn = "brave" → ∃ sess, init ws hl ic iu tw dn dp cua = Except.ok sess ∧
        sess.co.browserPath = some "usr/bin/brave-browser") ∧
    (dn = "opera" → ∃ sess, init ws hl ic iu tw dn dp cua = Except.ok sess ∧
        sess.co.browserPath = some "usr/bin/opera") ∧
    (dn = "edge" → ∃ sess, init ws hl ic iu tw dn dp cua = Except.ok sess ∧
        sess.co.browserPath = some "usr/bin/microsoft-edge-dev") ∧
    (dn ≠ "chrome" → dn ≠ "brave" → dn ≠ "opera" → dn ≠ "edge" →
        init ws hl ic iu tw dn dp cua = Except.error ("Unsupported driver name: " ++ dn)) := by
  refine ⟨?_, ?_, ?_, ?_, ?_⟩
  · rintro rfl
    exact ⟨_, rfl, rfl⟩
  · rintro rfl
    exact ⟨_, rfl, rfl⟩
  · rintro rfl
    exact ⟨_, rfl, rfl⟩
  · rintro rfl
    exact ⟨_, rfl, rfl⟩
  · intro h1 h2 h3 h4
    simp [init, h1, h2, h3, h4]

/-- Witness for C3: with driver name "chrome" construction succeeds and the
browser path is the Chrome executable; with "firefox" it fails with the
unsupported-driver error, so no session exists. -/
theorem init_variant_paths_witness :
    (init "full" false false false 10 "chrome" 9222 "ua").map
        (fun sess => sess.co.browserPath) = Except.ok (some "usr/bin/google-chrome") ∧
    init "full" false false false 10 "firefox" 9222 "ua" =
      Except.error ("Unsupported driver name: " ++ "firefox") := by
  constructor
  · obtain ⟨sess, hok, hpath⟩ :=
      (init_variant_paths "full" false false false 10 "chrome" 9222 "ua").1 rfl
    rw [hok]
    simp [Except.map, hpath]
  · exact (init_variant_paths "full" false false false 10 "firefox" 9222 "ua").2.2.2.2
      (by decide) (by decide) (by decide) (by decide)

/-- Claim C6: when construction succeeds with window-size option "full" the
launch arguments contain the maximize argument and no window-size argument;
with any other window-size string S they contain a window-size argument
whose value is exactly S. -/
theorem init_window_size_argument (ws : String) (hl ic iu : Bool) (tw : Int) (dn : String)
    (dp : Int) (cua : String) (sess : Session)
    (h : init ws hl ic iu tw dn dp cua = Except.ok sess) :
    (ws = "full" → ("--start-maximized", (none : Option String)) ∈ sess.co.arguments ∧
        ∀ v : Option String, ("--window-size", v) ∉ sess.co.arguments) ∧
    (ws ≠ "full" → ("--window-size", some ws) ∈ sess.co.arguments) := by
  obtain ⟨hargs, -⟩ := init_ok_co h
  rw [hargs, build_options_arguments]
  constructor
  · intro hws
    rw [if_pos hws]
    refine ⟨by simp, ?_⟩
    intro v
    cases hl <;> cases ic <;> simp
  · intro hws
    rw [if_neg hws]
    simp

/-- Witness for C6: a concrete successful construction with window size
"full" whose launch arguments contain the maximize argument. -/
theorem init_window_size_argument_witness :
    ("--start-maximized", (none : Option String)) ∈
      (Session.mk
        (ChromiumOptions.mk
          [("--disable-dev-shm-usage", none), ("--disable-gpu", none),
           ("--start-maximized", none)]
          none none (some "usr/bin/google-chrome")) 10).co.arguments :=
  ((init_window_size_argument "full" false false false 10 "chrome" (-1) "ua"
      (Session.mk
        (ChromiumOptions.mk
          [("--disable-dev-shm-usage", none), ("--disable-gpu", none),
           ("--start-maximized", none)]
          none none (some "usr/bin/google-chrome")) 10)
      (by rfl)).1 rfl).1

/-- Claim C7: when construction succeeds with debug port -1 no remote-debug
address is set; with any other port p the address is exactly
"127.0.0.1:{p}". -/
theorem init_debug_address (ws : String) (hl ic iu : Bool) (tw : Int) (dn : String)
    (dp : Int) (cua : String) (sess : Session)
    (h : init ws hl ic iu tw dn dp cua = Except.ok sess) :
    (dp = -1 → sess.co.address = none) ∧
    (dp ≠ -1 → sess.co.address = some ("127.0.0.1:" ++ toString dp)) := by
  obtain ⟨-, haddr⟩ := init_ok_co h
  rw [haddr, build_options_address]
  constructor
  · intro hdp
    rw [if_neg (by simp [hdp])]
  · intro hdp
    rw [if_pos hdp]

/-- Witness for C7: a concrete successful construction with debug port 9222
whose remote-debug address is "127.0.0.1:9222". -/
theorem init_debug_address_witness :
    (Session.mk
      (ChromiumOptions.mk
        [("--disable-dev-shm-usage", none), ("--disable-gpu", none),
         ("--start-maximized", none)]
        none (some "127.0.0.1:9222") (some "usr/bin/google-chrome")) 10).co.address =
      some ("127.0.0.1:" ++ toString (9222 : Int)) :=
  (init_debug_address "full" false false false 10 "chrome" 9222 "ua"
      (Session.mk
        (ChromiumOptions.mk
          [("--disable-dev-shm-usage", none), ("--disable-gpu", none),
           ("--start-maximized", none)]
          none (some "127.0.0.1:9222") (some "usr/bin/google-chrome")) 10)
      (by rfl)).2 (by decide)

/-- Claim C10: every successful construction adds the launch arguments
--disable-dev-shm-usage and --disable-gpu regardless of configuration, and
whenever the headless flag is set it additionally adds --no-sandbox
alongside --headless. -/
theorem init_always_arguments (ws : String) (hl ic iu : Bool) (tw : Int) (dn : String)
    (dp : Int) (cua : String) (sess : Session)
    (h : init ws hl ic iu tw dn dp cua = Except.ok sess) :
    ("--disable-dev-shm-usage", (none : Option String)) ∈ sess.co.arguments ∧
    ("--disable-gpu", (none : Option String)) ∈ sess.co.arguments ∧
    (hl = true → ("--headless", (none : Option String)) ∈ sess.co.arguments ∧
        ("--no-sandbox", (none : Option String)) ∈ sess.co.arguments) := by
  obtain ⟨hargs, -⟩ := init_ok_co h
  rw [hargs, build_options_arguments]
  refine ⟨by simp, by simp, ?_⟩
  rintro rfl
  constructor <;> simp

/-- Witness for C10: a concrete successful headless construction whose
launch arguments contain --headless. -/
theorem init_always_arguments_witness :
    ("--headless", (none : Option String)) ∈
      (Session.mk
        (ChromiumOptions.mk
          [("--headless", none), ("--no-sandbox", none),
           ("--disable-dev-shm-usage", none), ("--disable-gpu", none),
           ("--start-maximized", none)]
          none none (some "usr/bin/google-chrome")) 10).co.arguments :=
  ((init_always_arguments "full" true false false 10 "chrome" (-1) "ua"
      (Session.mk
        (ChromiumOptions.mk
          [("--headless", none), ("--no-sandbox", none),
           ("--disable-dev-shm-usage", none), ("--disable-gpu", none),
           ("--start-maximized", none)]
          none none (some "usr/bin/google-chrome")) 10)
      (by rfl)).2.2 rfl).1

end DrissionPageBase
